import Mathlib

/-!
Verification of the boundary-visualization subsystem of the realm-maps demo.

The JavaScript source (src/mapbox-demo/src/utils/mapConfig.js, together with
src/mapbox-demo/src/services/api.js) is shallowly embedded below:

* real-valued numeric code is embedded over `ℝ` (JavaScript `%` on
  non-negative operands is `jsMod`, `Math.sqrt` is `Real.sqrt`,
  `Math.cos` is `Real.cos`);
* the mapbox map surface is a `MapState` record of loaded flag, present
  layer ids, named geojson sources, and a paint-property store;
* `requestAnimationFrame` / `cancelAnimationFrame` and the global
  `boundaryAnimationFrameId` variable are an explicit `AnimSt` state with a
  FIFO queue of pending callback ids, driven by a `step` relation over
  events (start, stop, frame fire, arbitrary map mutation by the
  environment).

The repository file contains two divergent implementations of the boundary
feature; the later one (hollow walls, the one whose line numbers the spec
cites) is embedded under the source's own names, and the earlier
"force field" variant under `...ForceField` names.

One deliberate divergence of the embedding is recorded where it matters:
Lean defines `x / 0 = 0` while JavaScript produces `NaN`; the statements
proved about the degenerate-edge path only use facts independent of that
choice (which segments are emitted, and that the divisor is zero).
-/

open Real

/-- JavaScript `a % b` for `a ≥ 0, b > 0` (floor- and truncation-division
agree there): `a - b * ⌊a / b⌋`. -/
noncomputable def jsMod (a b : ℝ) : ℝ := a - b * (⌊a / b⌋ : ℤ)

/-- Source `easeInOutSine` (mapConfig.js):
`(t) => -(Math.cos(Math.PI * t) - 1) / 2`. -/
noncomputable def easeInOutSine (t : ℝ) : ℝ :=
  -(Real.cos (Real.pi * t) - 1) / 2

/-- Source `getAnimatedValue` (mapConfig.js): progress through the current
cycle is `(currentTime % period) / period`, eased, then interpolated over
`range = [min, max]`. -/
noncomputable def getAnimatedValue (currentTime period : ℝ) (range : ℝ × ℝ) : ℝ :=
  let min := range.1
  let max := range.2
  let progress := jsMod currentTime period / period
  let eased := easeInOutSine progress
  min + (max - min) * eased

/-- Animation constants from `BOUNDARY_CONFIG` in mapConfig.js. -/
def enableAnimations : Bool := true

/-- `wallPulsePeriod: 3500`. -/
def wallPulsePeriod : ℝ := 3500

/-- `edgeGlowPeriod: 2500`. -/
def edgeGlowPeriod : ℝ := 2500

/-- `wallOpacityRange: [0.10, 0.40]`. -/
noncomputable def wallOpacityRange : ℝ × ℝ := (0.10, 0.40)

/-- `edgeWidthRange: [2, 6]`. -/
def edgeWidthRange : ℝ × ℝ := (2, 6)

/-- `edgeOpacityRange: [0.6, 1.0]`. -/
noncomputable def edgeOpacityRange : ℝ × ℝ := (0.6, 1.0)

/-- `cornerPillarRadius: 8` (meters). -/
def cornerPillarRadius : ℝ := 8

-- Basic evaluation lemmas for the oscillator.

lemma jsMod_self_mul (k : ℤ) (p : ℝ) (hp : p ≠ 0) : jsMod (k * p) p = 0 := by
  unfold jsMod
  rw [mul_div_assoc, div_self hp]
  simp
  ring

lemma jsMod_of_lt (a p : ℝ) (h0 : 0 ≤ a) (h1 : a < p) : jsMod a p = a := by
  unfold jsMod
  have hp : 0 < p := lt_of_le_of_lt h0 h1
  have : ⌊a / p⌋ = 0 := by
    rw [Int.floor_eq_zero_iff]
    constructor
    · positivity
    · rw [div_lt_one hp]; exact h1
  rw [this]
  simp

lemma easeInOutSine_zero : easeInOutSine 0 = 0 := by
  unfold easeInOutSine
  simp

lemma easeInOutSine_half : easeInOutSine (1 / 2) = 1 / 2 := by
  unfold easeInOutSine
  rw [mul_one_div, Real.cos_pi_div_two]
  norm_num

lemma easeInOutSine_one : easeInOutSine 1 = 1 := by
  unfold easeInOutSine
  simp [Real.cos_pi]

lemma getAnimatedValue_at_half_period :
    getAnimatedValue 1 2 (0, 1) = 1 / 2 := by
  unfold getAnimatedValue
  rw [jsMod_of_lt 1 2 (by norm_num) (by norm_num)]
  norm_num [easeInOutSine_half]

lemma getAnimatedValue_at_period :
    getAnimatedValue 2 2 (0, 1) = 0 := by
  unfold getAnimatedValue
  have h : jsMod 2 2 = 0 := by
    have := jsMod_self_mul 1 2 (by norm_num)
    simpa using this
  rw [h]
  norm_num [easeInOutSine_zero]

lemma getAnimatedValue_near_period :
    getAnimatedValue (5 / 3) 2 (0, 1) = (2 + Real.sqrt 3) / 4 := by
  simp only [getAnimatedValue, easeInOutSine]
  rw [jsMod_of_lt (5 / 3) 2 (by norm_num) (by norm_num)]
  have h56 : Real.pi * (5 / 3 / 2) = Real.pi - Real.pi / 6 := by ring
  rw [h56, Real.cos_pi_sub, Real.cos_pi_div_six]
  ring

lemma two_add_sqrt_three_div_four_big : (9 : ℝ) / 10 < (2 + Real.sqrt 3) / 4 := by
  have h : (1.6 : ℝ) < Real.sqrt 3 := by
    have h3 : ((1.6 : ℝ)) ^ 2 < 3 := by norm_num
    nlinarith [Real.sq_sqrt (by norm_num : (3:ℝ) ≥ 0),
      Real.sqrt_nonneg (3 : ℝ)]
  linarith

/-- The function actually used per frame on range `[0,1]` with period `2`,
as a smooth formula valid on `(0, 2)`. -/
noncomputable def rampOnPeriod (t : ℝ) : ℝ :=
  -(Real.cos (Real.pi * (t / 2)) - 1) / 2

lemma rampOnPeriod_continuous : Continuous rampOnPeriod := by
  unfold rampOnPeriod
  fun_prop

lemma getAnimatedValue_eq_ramp_on_Ioo (t : ℝ) (ht : t ∈ Set.Ioo (0 : ℝ) 2) :
    getAnimatedValue t 2 (0, 1) = rampOnPeriod t := by
  obtain ⟨h0, h2⟩ := ht
  unfold getAnimatedValue rampOnPeriod easeInOutSine
  rw [jsMod_of_lt t 2 (le_of_lt h0) h2]
  ring

lemma getAnimatedValue_discontinuous_at_period :
    ¬ ContinuousAt (fun t => getAnimatedValue t 2 (0, 1)) 2 := by
  intro hc
  have hmem : Set.Ioo (0 : ℝ) 2 ∈ nhdsWithin 2 (Set.Iio 2) := by
    rw [show Set.Ioo (0 : ℝ) 2 = Set.Ioi 0 ∩ Set.Iio 2 from (Set.Ioi_inter_Iio).symm]
    exact Filter.inter_mem
      (Filter.mem_inf_of_left (Ioi_mem_nhds (by norm_num)))
      (Filter.mem_inf_of_right (Filter.mem_principal_self _))
  have hramp2 : rampOnPeriod 2 = 1 := by
    unfold rampOnPeriod
    have : Real.pi * (2 / 2) = Real.pi := by ring
    rw [this, Real.cos_pi]
    ring
  have h1 : Filter.Tendsto (fun t => getAnimatedValue t 2 (0, 1))
      (nhdsWithin 2 (Set.Iio 2)) (nhds 1) := by
    have hgt : Filter.Tendsto rampOnPeriod (nhdsWithin 2 (Set.Iio 2))
        (nhds (rampOnPeriod 2)) :=
      (rampOnPeriod_continuous.continuousWithinAt).tendsto
    rw [hramp2] at hgt
    refine hgt.congr' ?_
    exact Filter.eventuallyEq_of_mem hmem
      (fun t ht => (getAnimatedValue_eq_ramp_on_Ioo t ht).symm)
  have h0 : Filter.Tendsto (fun t => getAnimatedValue t 2 (0, 1))
      (nhdsWithin 2 (Set.Iio 2)) (nhds 0) := by
    have hwc : ContinuousWithinAt (fun t => getAnimatedValue t 2 (0, 1))
        (Set.Iio 2) 2 := hc.continuousWithinAt
    have := hwc.tendsto
    rwa [getAnimatedValue_at_period] at this
  have := tendsto_nhds_unique h1 h0
  norm_num at this

/-- A geojson linear ring, as the list of its coordinate pairs
(longitude, latitude). Every feature this code builds is a single-ring
polygon, so a feature is modelled by its ring. -/
abbrev LinearRing := List (ℝ × ℝ)

/-- The mapbox map surface, restricted to the operations the source uses:
loaded flag, the named layers present, the named geojson sources, and the
paint-property store (most recent write first). -/
structure MapState where
  loaded : Bool
  layers : List String
  sources : List (String × List LinearRing)
  paint : List ((String × String) × ℝ)

/-- `map.getLayer(id)` truthiness. -/
def MapState.getLayer (m : MapState) (id : String) : Bool :=
  m.layers.contains id

/-- `map.addLayer({id: ...})` (the before-anchor only affects z-order,
which no claim concerns; layers are kept in insertion order). -/
def MapState.addLayer (m : MapState) (id : String) : MapState :=
  { m with layers := m.layers ++ [id] }

/-- `map.removeLayer(id)`. -/
def MapState.removeLayer (m : MapState) (id : String) : MapState :=
  { m with layers := m.layers.filter (fun l => l ≠ id) }

/-- `map.getSource(id)` truthiness / lookup. -/
def MapState.getSource (m : MapState) (id : String) : Option (List LinearRing) :=
  (m.sources.find? (fun s => s.1 = id)).map Prod.snd

/-- `map.addSource(id, {data})`, keeping the features of the geojson. -/
def MapState.addSource (m : MapState) (id : String) (fs : List LinearRing) : MapState :=
  { m with sources := m.sources ++ [(id, fs)] }

/-- `map.removeSource(id)`. -/
def MapState.removeSource (m : MapState) (id : String) : MapState :=
  { m with sources := m.sources.filter (fun s => s.1 ≠ id) }

/-- `map.setPaintProperty(id, prop, v)`. -/
def MapState.setPaintProperty (m : MapState) (id prop : String) (v : ℝ) : MapState :=
  { m with paint := ((id, prop), v) :: m.paint }

/-- Current value of a paint property, if one was ever set. -/
def MapState.getPaint (m : MapState) (id prop : String) : Option ℝ :=
  (m.paint.find? (fun e => e.1 = (id, prop))).map Prod.snd

/-- The removal prelude shared by the hollow-wall builders
(mapConfig.js lines 995–1014 and 1208–1227): remove the three boundary
layers and the two boundary sources if present. -/
def removeWallBoundary (m : MapState) : MapState :=
  let m1 := if m.getLayer "observation-boundary-walls" then
      m.removeLayer "observation-boundary-walls" else m
  let m2 := if m1.getLayer "observation-boundary-top-edge" then
      m1.removeLayer "observation-boundary-top-edge" else m1
  let m3 := if m2.getLayer "observation-boundary-base-line" then
      m2.removeLayer "observation-boundary-base-line" else m2
  let m4 := if (m3.getSource "observation-boundary-walls").isSome then
      m3.removeSource "observation-boundary-walls" else m3
  if (m4.getSource "observation-boundary").isSome then
    m4.removeSource "observation-boundary" else m4

/-- `const edgeWidth = 0.00001` of the rectangle builder (line 1021). -/
noncomputable def rectWallEdgeWidth : ℝ := 0.00001

/-- The hollow-wall `addBoundaryLayer` (mapConfig.js line 992): validates
the bounds, removes prior boundary layers/sources, builds four thin wall
rectangles (S/N/W/E) plus the outline ring, adds both sources and the
three layers. The trailing `setTimeout(startBoundaryAnimation, 100)` is an
animation event, covered by the `AnimSt` machine below. -/
noncomputable def addBoundaryLayer (m : MapState) (bounds : Option (List (ℝ × ℝ))) :
    MapState :=
  match bounds with
  | none => m
  | some b =>
    if b.length ≠ 2 then m
    else
      let m1 := removeWallBoundary m
      match b with
      | [sw, ne] =>
        let minLng := sw.1
        let minLat := sw.2
        let maxLng := ne.1
        let maxLat := ne.2
        let w := rectWallEdgeWidth
        let southWall : LinearRing :=
          [(minLng, minLat - w), (maxLng, minLat - w), (maxLng, minLat + w),
           (minLng, minLat + w), (minLng, minLat - w)]
        let northWall : LinearRing :=
          [(minLng, maxLat - w), (maxLng, maxLat - w), (maxLng, maxLat + w),
           (minLng, maxLat + w), (minLng, maxLat - w)]
        let westWall : LinearRing :=
          [(minLng - w, minLat), (minLng + w, minLat), (minLng + w, maxLat),
           (minLng - w, maxLat), (minLng - w, minLat)]
        let eastWall : LinearRing :=
          [(maxLng - w, minLat), (maxLng + w, minLat), (maxLng + w, maxLat),
           (maxLng - w, maxLat), (maxLng - w, minLat)]
        let walls := [southWall, northWall, westWall, eastWall]
        let outline : LinearRing :=
          [(minLng, minLat), (maxLng, minLat), (maxLng, maxLat),
           (minLng, maxLat), (minLng, minLat)]
        let m2 := m1.addSource "observation-boundary-walls" walls
        let m3 := m2.addSource "observation-boundary" [outline]
        let m4 := m3.addLayer "observation-boundary-walls"
        let m5 := m4.addLayer "observation-boundary-top-edge"
        m5.addLayer "observation-boundary-base-line"
      | _ => m1

/-- LinearRing closing (lines 1237–1245): if the first vertex differs from the
last in either component, append the first vertex. -/
noncomputable def closeRing (coords : List (ℝ × ℝ)) : List (ℝ × ℝ) :=
  match coords with
  | [] => []
  | first :: _ =>
    let lastPoint := coords.getLastD first
    if first = lastPoint then coords else coords ++ [first]

/-- `const edgeWidth = 0.0001` of the polygon builder (line 1259). -/
noncomputable def polyWallEdgeWidth : ℝ := 0.0001

/-- One loop iteration of lines 1263–1290: the thin wall rectangle for the
edge from `p` to `q`. The divisor `length` is `sqrt(dx² + dy²)`; the
source has no guard against `length = 0` (Lean resolves `x / 0` to `0`
where JavaScript would produce `NaN`; the theorems below only use facts
independent of that difference). -/
noncomputable def wallSegment (p q : ℝ × ℝ) : LinearRing :=
  let dx := q.1 - p.1
  let dy := q.2 - p.2
  let length := Real.sqrt (dx * dx + dy * dy)
  let perpX := (-dy / length) * polyWallEdgeWidth
  let perpY := (dx / length) * polyWallEdgeWidth
  [(p.1 - perpX, p.2 - perpY), (q.1 - perpX, q.2 - perpY),
   (q.1 + perpX, q.2 + perpY), (p.1 + perpX, p.2 + perpY),
   (p.1 - perpX, p.2 - perpY)]

/-- The edge loop `for (i = 0; i < coords.length - 1; i++)`: one wall
segment per consecutive vertex pair, with no skip of degenerate edges. -/
noncomputable def wallSegments (coords : List (ℝ × ℝ)) : List LinearRing :=
  (coords.zip coords.tail).map (fun pq => wallSegment pq.1 pq.2)

/-- The divisor used by the wall loop for the edge from `p` to `q`. -/
noncomputable def edgeLength (p q : ℝ × ℝ) : ℝ :=
  Real.sqrt ((q.1 - p.1) * (q.1 - p.1) + (q.2 - p.2) * (q.2 - p.2))

/-- `addBoundaryLayerFromPolygon` (mapConfig.js line 1201). `none` models
a null/undefined polygon or missing `coordinates`; `some rings` models
`polygon.coordinates`. Validation of the polygon happens before the
removal prelude, validation of the first ring after it, as in the
source. -/
noncomputable def addBoundaryLayerFromPolygon (m : MapState)
    (polygon : Option (List (List (ℝ × ℝ)))) : MapState :=
  match polygon with
  | none => m
  | some coordinates =>
    if coordinates.length = 0 then m
    else
      let m1 := removeWallBoundary m
      match coordinates with
      | [] => m1
      | coords0 :: _ =>
        if coords0.length = 0 then m1
        else
          let coords := closeRing coords0
          let walls := wallSegments coords
          let m2 := m1.addSource "observation-boundary-walls" walls
          let m3 := m2.addSource "observation-boundary" [coords]
          let m4 := m3.addLayer "observation-boundary-walls"
          let m5 := m4.addLayer "observation-boundary-top-edge"
          m5.addLayer "observation-boundary-base-line"

/-- `createCornerPillar` (mapConfig.js line 401, force-field variant):
a small closed square of half-side `radius / 111000` degrees around the
corner point. -/
noncomputable def createCornerPillar (lng lat radius : ℝ) : LinearRing :=
  let radiusDeg := radius / 111000
  [(lng - radiusDeg, lat - radiusDeg), (lng + radiusDeg, lat - radiusDeg),
   (lng + radiusDeg, lat + radiusDeg), (lng - radiusDeg, lat + radiusDeg),
   (lng - radiusDeg, lat - radiusDeg)]

/-- Removal prelude of the force-field `addBoundaryLayer`
(mapConfig.js lines 446–466): five layers, two sources. -/
def removeForceFieldBoundary (m : MapState) : MapState :=
  let ids := ["observation-boundary-inner-glow", "observation-boundary-walls",
    "observation-boundary-corners", "observation-boundary-top-edge",
    "observation-boundary-base-line"]
  let m1 := ids.foldl (fun acc id => if acc.getLayer id then acc.removeLayer id else acc) m
  let m2 := if (m1.getSource "observation-boundary").isSome then
      m1.removeSource "observation-boundary" else m1
  if (m2.getSource "observation-boundary-corners").isSome then
    m2.removeSource "observation-boundary-corners" else m2

/-- The earlier force-field `addBoundaryLayer` (mapConfig.js line 442):
one filled boundary rectangle plus four corner pillars, five layers.
The source file declares both builders under the same exported name;
this embedding distinguishes them by suffix. -/
noncomputable def addBoundaryLayerForceField (m : MapState)
    (bounds : Option (List (ℝ × ℝ))) : MapState :=
  match bounds with
  | none => m
  | some b =>
    if b.length ≠ 2 then m
    else
      let m1 := removeForceFieldBoundary m
      match b with
      | [sw, ne] =>
        let minLng := sw.1
        let minLat := sw.2
        let maxLng := ne.1
        let maxLat := ne.2
        let boundary : LinearRing :=
          [(minLng, minLat), (maxLng, minLat), (maxLng, maxLat),
           (minLng, maxLat), (minLng, minLat)]
        let cornerPillars : List LinearRing :=
          [createCornerPillar minLng minLat cornerPillarRadius,
           createCornerPillar maxLng minLat cornerPillarRadius,
           createCornerPillar maxLng maxLat cornerPillarRadius,
           createCornerPillar minLng maxLat cornerPillarRadius]
        let m2 := m1.addSource "observation-boundary" [boundary]
        let m3 := m2.addSource "observation-boundary-corners" cornerPillars
        let m4 := m3.addLayer "observation-boundary-inner-glow"
        let m5 := m4.addLayer "observation-boundary-walls"
        let m6 := m5.addLayer "observation-boundary-corners"
        let m7 := m6.addLayer "observation-boundary-top-edge"
        m7.addLayer "observation-boundary-base-line"
      | _ => m1


/-- The animation system state: the map object the scheduled closures
capture, the `performance.now()` clock, the global
`boundaryAnimationFrameId`, the FIFO queue of pending
`requestAnimationFrame` callback ids (every callback scheduled by this
code is `() => animateBoundaryLayers(map)`), and the id counter. -/
structure AnimSt where
  map : MapState
  now : ℝ
  frameId : Option ℕ
  pending : List ℕ
  nextId : ℕ

/-- `requestAnimationFrame(cb)`: returns a fresh id and enqueues the
callback. -/
def requestAnimationFrame (s : AnimSt) : ℕ × AnimSt :=
  (s.nextId, { s with pending := s.pending ++ [s.nextId], nextId := s.nextId + 1 })

/-- `cancelAnimationFrame(id)`: removes a pending callback; a no-op when
the id is not pending. -/
def cancelAnimationFrame (s : AnimSt) (id : ℕ) : AnimSt :=
  { s with pending := s.pending.filter (fun i => i ≠ id) }

/-- `animateBoundaryLayers` (mapConfig.js lines 909–945): bail out when
animations are disabled or the map is not loaded (without rescheduling);
otherwise read `performance.now()`, update the wall opacity if the walls
layer is present, update the top-edge width and opacity if that layer is
present, then reschedule itself and store the new frame id. -/
noncomputable def animateBoundaryLayers (s : AnimSt) : AnimSt :=
  if !enableAnimations || !s.map.loaded then s
  else
    let currentTime := s.now
    let m1 := if s.map.getLayer "observation-boundary-walls" then
        s.map.setPaintProperty "observation-boundary-walls" "fill-extrusion-opacity"
          (getAnimatedValue currentTime wallPulsePeriod wallOpacityRange)
      else s.map
    let m2 := if m1.getLayer "observation-boundary-top-edge" then
        (m1.setPaintProperty "observation-boundary-top-edge" "line-width"
            (getAnimatedValue currentTime edgeGlowPeriod edgeWidthRange)).setPaintProperty
          "observation-boundary-top-edge" "line-opacity"
          (getAnimatedValue currentTime edgeGlowPeriod edgeOpacityRange)
      else m1
    let s1 := { s with map := m2 }
    let r := requestAnimationFrame s1
    { r.2 with frameId := some r.1 }

/-- `stopBoundaryAnimation` (lines 968–973): cancel the stored frame id if
there is one and null it out. -/
def stopBoundaryAnimation (s : AnimSt) : AnimSt :=
  match s.frameId with
  | some id => { cancelAnimationFrame s id with frameId := none }
  | none => s

/-- `startBoundaryAnimation` (lines 951–962): always stop first, then run
one animation step if animations are enabled. -/
noncomputable def startBoundaryAnimation (s : AnimSt) : AnimSt :=
  let s1 := stopBoundaryAnimation s
  if enableAnimations then animateBoundaryLayers s1 else s1

/-- Everything the event loop can do to the animation system: a `start`
or `stop` call, the browser firing the oldest pending frame callback at
clock time `t`, or any environment mutation of the map surface (layer
adds/removals, style changes, load-state changes). -/
inductive AnimEvent where
  | start : AnimEvent
  | stop : AnimEvent
  | fire : ℝ → AnimEvent
  | setMap : MapState → AnimEvent

/-- One event-loop step. -/
noncomputable def stepAnim (s : AnimSt) : AnimEvent → AnimSt
  | AnimEvent.start => startBoundaryAnimation s
  | AnimEvent.stop => stopBoundaryAnimation s
  | AnimEvent.fire t =>
    match s.pending with
    | [] => s
    | _ :: rest => animateBoundaryLayers { s with pending := rest, now := t }
  | AnimEvent.setMap m => { s with map := m }

/-- A whole run of the event loop. -/
noncomputable def runAnim (s : AnimSt) (evs : List AnimEvent) : AnimSt :=
  evs.foldl stepAnim s

/-- The state of a page before any animation was ever started. -/
def initSt (m : MapState) : AnimSt :=
  { map := m, now := 0, frameId := none, pending := [], nextId := 0 }

/-- The animation-loop invariant: at most one callback chain is alive, and
any pending callback is the one the global frame id points at. -/
def AnimInv (s : AnimSt) : Prop :=
  s.pending.length ≤ 1 ∧ ∀ id ∈ s.pending, s.frameId = some id

lemma animInv_init (m : MapState) : AnimInv (initSt m) := by
  constructor
  · simp [initSt]
  · intro id h
    simp [initSt] at h

lemma stop_resets (s : AnimSt) (h : AnimInv s) :
    (stopBoundaryAnimation s).pending = [] ∧
    (stopBoundaryAnimation s).frameId = none := by
  obtain ⟨hlen, hmatch⟩ := h
  unfold stopBoundaryAnimation
  cases hf : s.frameId with
  | none =>
    have hpend : s.pending = [] := by
      cases hp : s.pending with
      | nil => rfl
      | cons a rest =>
        have := hmatch a (by rw [hp]; exact List.mem_cons_self a rest)
        rw [hf] at this
        exact absurd this (by simp)
    simp [hpend, hf]
  | some id =>
    constructor
    · simp only [cancelAnimationFrame]
      rw [List.filter_eq_nil_iff]
      intro a ha
      have heq := hmatch a ha
      rw [hf] at heq
      injection heq with hinj
      simp [hinj]
    · rfl

lemma animate_inv_of_empty (s : AnimSt) (h : s.pending = []) :
    AnimInv (animateBoundaryLayers s) := by
  unfold animateBoundaryLayers
  by_cases hb : (!enableAnimations || !s.map.loaded) = true
  · rw [if_pos hb]
    exact ⟨by simp [h], by intro id hid; rw [h] at hid; cases hid⟩
  · rw [if_neg hb]
    simp only [requestAnimationFrame]
    constructor
    · simp [h]
    · intro id hid
      simp [h] at hid
      simp [hid]

lemma stop_inv (s : AnimSt) (h : AnimInv s) : AnimInv (stopBoundaryAnimation s) := by
  obtain ⟨h1, h2⟩ := stop_resets s h
  exact ⟨by simp [h1], by intro id hid; rw [h1] at hid; cases hid⟩

lemma start_inv (s : AnimSt) (h : AnimInv s) : AnimInv (startBoundaryAnimation s) := by
  unfold startBoundaryAnimation
  by_cases he : enableAnimations = true
  · rw [if_pos he]
    exact animate_inv_of_empty _ (stop_resets s h).1
  · rw [if_neg he]
    exact stop_inv s h

lemma step_inv (s : AnimSt) (e : AnimEvent) (h : AnimInv s) :
    AnimInv (stepAnim s e) := by
  cases e with
  | start => exact start_inv s h
  | stop => exact stop_inv s h
  | fire t =>
    rcases hp : s.pending with _ | ⟨a, rest⟩
    · have hstep : stepAnim s (AnimEvent.fire t) = s := by
        simp only [stepAnim, hp]
      rw [hstep]
      exact h
    · have hstep : stepAnim s (AnimEvent.fire t) =
          animateBoundaryLayers { s with pending := rest, now := t } := by
        simp only [stepAnim, hp]
      rw [hstep]
      have hrest : rest = [] := by
        have h1 := h.1
        rw [hp] at h1
        simpa using h1
      exact animate_inv_of_empty _ (by simp [hrest])
  | setMap m =>
    obtain ⟨h1, h2⟩ := h
    exact ⟨h1, h2⟩

lemma run_inv (s : AnimSt) (evs : List AnimEvent) (h : AnimInv s) :
    AnimInv (runAnim s evs) := by
  induction evs generalizing s with
  | nil => exact h
  | cons e rest ih => exact ih (stepAnim s e) (step_inv s e h)

/-- An observation record, restricted to the coordinate fields
`calculateBounds` and `calculateCenter` read (api.js). Coordinates are
embedded as rationals. -/
structure Observation where
  lng : ℚ
  lat : ℚ

/-- `Math.min(...xs)` over a non-empty spread, seeded with the first
element. -/
def minOf (x : ℚ) (xs : List ℚ) : ℚ := xs.foldl min x

/-- `Math.max(...xs)` over a non-empty spread. -/
def maxOf (x : ℚ) (xs : List ℚ) : ℚ := xs.foldl max x

/-- `calculateBounds` (api.js lines 85–97): null for a null or empty
observation list, otherwise `[[minLng, minLat], [maxLng, maxLat]]`. -/
def calculateBounds (observations : Option (List Observation)) :
    Option ((ℚ × ℚ) × (ℚ × ℚ)) :=
  match observations with
  | none => none
  | some obs =>
    match obs with
    | [] => none
    | o :: rest =>
      let lngs := rest.map (fun x => x.lng)
      let lats := rest.map (fun x => x.lat)
      some ((minOf o.lng lngs, minOf o.lat lats),
            (maxOf o.lng lngs, maxOf o.lat lats))

lemma minOf_le (x : ℚ) (xs : List ℚ) :
    minOf x xs ≤ x ∧ ∀ y ∈ xs, minOf x xs ≤ y := by
  induction xs generalizing x with
  | nil => exact ⟨le_refl x, by intro y h; cases h⟩
  | cons a as ih =>
    obtain ⟨h1, h2⟩ := ih (min x a)
    have hstep : minOf x (a :: as) = minOf (min x a) as := rfl
    constructor
    · rw [hstep]
      exact le_trans h1 (min_le_left x a)
    · intro y hy
      rw [hstep]
      rcases List.mem_cons.mp hy with h | h
      · rw [h]
        exact le_trans h1 (min_le_right x a)
      · exact h2 y h

lemma le_maxOf (x : ℚ) (xs : List ℚ) :
    x ≤ maxOf x xs ∧ ∀ y ∈ xs, y ≤ maxOf x xs := by
  induction xs generalizing x with
  | nil => exact ⟨le_refl x, by intro y h; cases h⟩
  | cons a as ih =>
    obtain ⟨h1, h2⟩ := ih (max x a)
    have hstep : maxOf x (a :: as) = maxOf (max x a) as := rfl
    constructor
    · rw [hstep]
      exact le_trans (le_max_left x a) h1
    · intro y hy
      rw [hstep]
      rcases List.mem_cons.mp hy with h | h
      · rw [h]
        exact le_trans (le_max_right x a) h1
      · exact h2 y h

-- Helper lemmas about the paint store and the frame step.

lemma getPaint_set_self (m : MapState) (id prop : String) (v : ℝ) :
    (m.setPaintProperty id prop v).getPaint id prop = some v := by
  simp [MapState.setPaintProperty, MapState.getPaint]

lemma getPaint_set_other (m : MapState) (id prop id' prop' : String) (v : ℝ)
    (h : (id', prop') ≠ (id, prop)) :
    (m.setPaintProperty id' prop' v).getPaint id prop = m.getPaint id prop := by
  simp only [MapState.setPaintProperty, MapState.getPaint, List.find?]
  rw [decide_eq_false h]

lemma getLayer_set_paint (m : MapState) (id prop : String) (v : ℝ) (l : String) :
    (m.setPaintProperty id prop v).getLayer l = m.getLayer l := rfl

lemma wallSegments_length (l : List (ℝ × ℝ)) :
    (wallSegments l).length = l.length - 1 := by
  cases l with
  | nil => simp [wallSegments]
  | cons a as => simp [wallSegments]

lemma getLast?_eq_getLastD (l : List (ℝ × ℝ)) (d : ℝ × ℝ) (h : l ≠ []) :
    l.getLast? = some (l.getLastD d) := by
  induction l generalizing d with
  | nil => exact absurd rfl h
  | cons a as ih =>
    cases as with
    | nil => simp
    | cons b bs =>
      rw [List.getLast?_cons_cons]
      exact ih a (by simp)

lemma stop_of_none (s : AnimSt) (h : s.frameId = none) :
    stopBoundaryAnimation s = s := by
  unfold stopBoundaryAnimation
  rw [h]

lemma animate_reschedules (s : AnimSt) (hl : s.map.loaded = true) :
    (animateBoundaryLayers s).frameId = some s.nextId ∧
    (animateBoundaryLayers s).pending = s.pending ++ [s.nextId] := by
  simp [animateBoundaryLayers, enableAnimations, hl, requestAnimationFrame]

lemma animate_walls_present (s : AnimSt) (hl : s.map.loaded = true)
    (hw : s.map.getLayer "observation-boundary-walls" = true) :
    (animateBoundaryLayers s).map.getPaint "observation-boundary-walls"
        "fill-extrusion-opacity"
      = some (getAnimatedValue s.now wallPulsePeriod wallOpacityRange) := by
  have hne1 : (("observation-boundary-top-edge", "line-width") :
      String × String) ≠ ("observation-boundary-walls", "fill-extrusion-opacity") := by
    simp
  have hne2 : (("observation-boundary-top-edge", "line-opacity") :
      String × String) ≠ ("observation-boundary-walls", "fill-extrusion-opacity") := by
    simp
  simp only [animateBoundaryLayers, enableAnimations, hl, hw, Bool.not_true,
    Bool.or_self, if_false, if_true, Bool.false_eq_true, ite_false, ite_true,
    requestAnimationFrame]
  by_cases ht : (s.map.setPaintProperty "observation-boundary-walls"
      "fill-extrusion-opacity"
      (getAnimatedValue s.now wallPulsePeriod wallOpacityRange)).getLayer
      "observation-boundary-top-edge" = true
  · simp only [ht, ite_true]
    rw [getPaint_set_other _ _ _ _ _ _ hne2, getPaint_set_other _ _ _ _ _ _ hne1]
    exact getPaint_set_self _ _ _ _
  · simp only [eq_false_of_ne_true ht, ite_false]
    exact getPaint_set_self _ _ _ _

lemma animate_walls_absent (s : AnimSt) (hl : s.map.loaded = true)
    (hw : s.map.getLayer "observation-boundary-walls" = false) :
    (animateBoundaryLayers s).map.getPaint "observation-boundary-walls"
        "fill-extrusion-opacity"
      = s.map.getPaint "observation-boundary-walls" "fill-extrusion-opacity" := by
  have hne1 : (("observation-boundary-top-edge", "line-width") :
      String × String) ≠ ("observation-boundary-walls", "fill-extrusion-opacity") := by
    simp
  have hne2 : (("observation-boundary-top-edge", "line-opacity") :
      String × String) ≠ ("observation-boundary-walls", "fill-extrusion-opacity") := by
    simp
  simp only [animateBoundaryLayers, enableAnimations, hl, hw, Bool.not_true,
    Bool.or_self, if_false, if_true, Bool.false_eq_true, ite_false, ite_true,
    requestAnimationFrame]
  by_cases ht : s.map.getLayer "observation-boundary-top-edge" = true
  · simp only [ht, ite_true]
    rw [getPaint_set_other _ _ _ _ _ _ hne2, getPaint_set_other _ _ _ _ _ _ hne1]
  · simp only [eq_false_of_ne_true ht, Bool.false_eq_true, ite_false]

lemma animate_topedge_present (s : AnimSt) (hl : s.map.loaded = true)
    (ht : s.map.getLayer "observation-boundary-top-edge" = true) :
    (animateBoundaryLayers s).map.getPaint "observation-boundary-top-edge"
        "line-width"
      = some (getAnimatedValue s.now edgeGlowPeriod edgeWidthRange) ∧
    (animateBoundaryLayers s).map.getPaint "observation-boundary-top-edge"
        "line-opacity"
      = some (getAnimatedValue s.now edgeGlowPeriod edgeOpacityRange) := by
  have hne3 : (("observation-boundary-top-edge", "line-opacity") :
      String × String) ≠ ("observation-boundary-top-edge", "line-width") := by
    simp
  simp only [animateBoundaryLayers, enableAnimations, hl, Bool.not_true,
    Bool.or_self, if_false, if_true, Bool.false_eq_true, ite_false, ite_true,
    requestAnimationFrame]
  by_cases hw : s.map.getLayer "observation-boundary-walls" = true
  · simp only [hw, ite_true, getLayer_set_paint, ht]
    constructor
    · rw [getPaint_set_other _ _ _ _ _ _ hne3]
      exact getPaint_set_self _ _ _ _
    · exact getPaint_set_self _ _ _ _
  · simp only [eq_false_of_ne_true hw, Bool.false_eq_true, ite_false, ht,
      ite_true]
    constructor
    · rw [getPaint_set_other _ _ _ _ _ _ hne3]
      exact getPaint_set_self _ _ _ _
    · exact getPaint_set_self _ _ _ _

/-- A freshly loaded map with no custom layers, sources, or paint. -/
def emptyMap : MapState := ⟨true, [], [], []⟩

/-- A loaded map carrying both animated boundary layers. -/
def sampleMapSt : MapState :=
  ⟨true, ["observation-boundary-walls", "observation-boundary-top-edge"], [], []⟩

/-- An animation-system state over `sampleMapSt` before any start. -/
noncomputable def sampleAnim : AnimSt := ⟨sampleMapSt, 0, none, [], 0⟩

/-- An animation-system state whose map lacks the walls layer but has the
top-edge layer. -/
noncomputable def missingWallsAnim : AnimSt :=
  ⟨⟨true, ["observation-boundary-top-edge"], [], []⟩, 0, none, [], 0⟩

/-- Claim C1 (confirmed): starting from a page where no animation ever ran,
after any sequence of `startBoundaryAnimation` / `stopBoundaryAnimation`
calls, frame firings, and environment map mutations — including two starts
in a row — at most one animation-frame callback is pending, and any pending
callback is the one the stored `boundaryAnimationFrameId` refers to: at
most one callback chain is ever alive. -/
theorem at_most_one_animation_loop (m : MapState) (evs : List AnimEvent) :
    (runAnim (initSt m) evs).pending.length ≤ 1 ∧
    ∀ id ∈ (runAnim (initSt m) evs).pending,
      (runAnim (initSt m) evs).frameId = some id :=
  run_inv (initSt m) evs (animInv_init m)

/-- Claim C2 (confirmed): during a frame on a loaded map, a missing target
layer — the one per-property failure mode of the embedded surface, e.g. a
layer torn down between frames — is skipped for that property only: the
skipped property keeps its previous value, the other target layers are
still updated, and the callback still reschedules itself, so the frame
loop is never aborted. -/
theorem animate_frame_failure_isolated (s : AnimSt) (hl : s.map.loaded = true) :
    ((animateBoundaryLayers s).frameId = some s.nextId ∧
     (animateBoundaryLayers s).pending = s.pending ++ [s.nextId]) ∧
    (s.map.getLayer "observation-boundary-walls" = false →
      (animateBoundaryLayers s).map.getPaint "observation-boundary-walls"
          "fill-extrusion-opacity"
        = s.map.getPaint "observation-boundary-walls" "fill-extrusion-opacity") ∧
    (s.map.getLayer "observation-boundary-top-edge" = true →
      (animateBoundaryLayers s).map.getPaint "observation-boundary-top-edge"
          "line-width"
        = some (getAnimatedValue s.now edgeGlowPeriod edgeWidthRange) ∧
      (animateBoundaryLayers s).map.getPaint "observation-boundary-top-edge"
          "line-opacity"
        = some (getAnimatedValue s.now edgeGlowPeriod edgeOpacityRange)) ∧
    (s.map.getLayer "observation-boundary-walls" = true →
      (animateBoundaryLayers s).map.getPaint "observation-boundary-walls"
          "fill-extrusion-opacity"
        = some (getAnimatedValue s.now wallPulsePeriod wallOpacityRange)) :=
  ⟨animate_reschedules s hl,
   fun hw => animate_walls_absent s hl hw,
   fun ht => animate_topedge_present s hl ht,
   fun hw => animate_walls_present s hl hw⟩

/-- Witness for C2: a concrete loaded map missing the walls layer; the
frame still reschedules, leaves the walls property untouched and updates
the top-edge width. -/
theorem animate_frame_failure_isolated_witness :
    missingWallsAnim.map.loaded = true ∧
    missingWallsAnim.map.getLayer "observation-boundary-walls" = false ∧
    (animateBoundaryLayers missingWallsAnim).frameId
      = some missingWallsAnim.nextId ∧
    (animateBoundaryLayers missingWallsAnim).map.getPaint
        "observation-boundary-walls" "fill-extrusion-opacity"
      = missingWallsAnim.map.getPaint "observation-boundary-walls"
          "fill-extrusion-opacity" ∧
    (animateBoundaryLayers missingWallsAnim).map.getPaint
        "observation-boundary-top-edge" "line-width"
      = some (getAnimatedValue missingWallsAnim.now edgeGlowPeriod
          edgeWidthRange) := by
  have hl : missingWallsAnim.map.loaded = true := rfl
  have hw : missingWallsAnim.map.getLayer "observation-boundary-walls"
      = false := by decide
  have ht : missingWallsAnim.map.getLayer "observation-boundary-top-edge"
      = true := by decide
  exact ⟨hl, hw,
    (animate_frame_failure_isolated missingWallsAnim hl).1.1,
    (animate_frame_failure_isolated missingWallsAnim hl).2.1 hw,
    ((animate_frame_failure_isolated missingWallsAnim hl).2.2.1 ht).1⟩

/-- Claim C3 (code bug): the spec asks for min at multiples of the period,
a value close to max near half period, and continuity across the period
boundary. At period 2 on range [0,1] the source oscillator indeed returns
the min at t = 0 and t = 2, but at half period t = 1 it returns exactly
the midpoint 1/2 (not close to the max), it climbs above 9/10 only near
the period end (t = 5/3 gives (2+√3)/4), and it is not continuous at the
period boundary t = 2: the eased ramp rises min → max over one full
period, then snaps back to min. -/
theorem getAnimatedValue_ramp_not_oscillation :
    getAnimatedValue 0 2 (0, 1) = 0 ∧
    getAnimatedValue 1 2 (0, 1) = 1 / 2 ∧
    getAnimatedValue (5 / 3) 2 (0, 1) = (2 + Real.sqrt 3) / 4 ∧
    (9 : ℝ) / 10 < getAnimatedValue (5 / 3) 2 (0, 1) ∧
    getAnimatedValue 2 2 (0, 1) = 0 ∧
    ¬ ContinuousAt (fun t => getAnimatedValue t 2 (0, 1)) 2 := by
  refine ⟨?_, getAnimatedValue_at_half_period, getAnimatedValue_near_period,
    ?_, getAnimatedValue_at_period, getAnimatedValue_discontinuous_at_period⟩
  · unfold getAnimatedValue
    rw [jsMod_of_lt 0 2 (le_refl 0) (by norm_num)]
    norm_num [easeInOutSine_zero]
  · rw [getAnimatedValue_near_period]
    exact two_add_sqrt_three_div_four_big

/-- Claim C4 (confirmed): the animated value is
min + (max − min) · (1 − cos(π · ((t mod P)/P)))/2, and the time argument
the frame loop supplies is the state's `performance.now()` clock — the
painted value is a function of `s.now` alone, never of the frame-id
counter. -/
theorem getAnimatedValue_formula_and_wall_clock :
    (∀ t P mn mx : ℝ, 0 ≤ t → 0 < P →
      getAnimatedValue t P (mn, mx)
        = mn + (mx - mn) * ((1 - Real.cos (Real.pi * (jsMod t P / P))) / 2)) ∧
    (∀ s : AnimSt, s.map.loaded = true →
      s.map.getLayer "observation-boundary-walls" = true →
      (animateBoundaryLayers s).map.getPaint "observation-boundary-walls"
          "fill-extrusion-opacity"
        = some (getAnimatedValue s.now wallPulsePeriod wallOpacityRange)) := by
  constructor
  · intro t P mn mx ht hP
    unfold getAnimatedValue easeInOutSine
    ring
  · intro s hl hw
    exact animate_walls_present s hl hw

/-- Witness for C4 at t = 0, P = 3500 and at a concrete animation state. -/
theorem getAnimatedValue_formula_and_wall_clock_witness :
    ((0 : ℝ) ≤ 0 ∧ (0 : ℝ) < 3500 ∧
      getAnimatedValue 0 3500 (0, 1)
        = 0 + (1 - 0) * ((1 - Real.cos (Real.pi * (jsMod 0 3500 / 3500))) / 2)) ∧
    (sampleAnim.map.loaded = true ∧
     sampleAnim.map.getLayer "observation-boundary-walls" = true ∧
     (animateBoundaryLayers sampleAnim).map.getPaint "observation-boundary-walls"
         "fill-extrusion-opacity"
       = some (getAnimatedValue sampleAnim.now wallPulsePeriod wallOpacityRange)) := by
  have hw : sampleAnim.map.getLayer "observation-boundary-walls" = true := by
    decide
  exact ⟨⟨le_refl 0, by norm_num,
    getAnimatedValue_formula_and_wall_clock.1 0 3500 0 1 (le_refl 0) (by norm_num)⟩,
    rfl, hw, getAnimatedValue_formula_and_wall_clock.2 sampleAnim rfl hw⟩

/-- Claim C9 (confirmed): in any reachable animation state,
`stopBoundaryAnimation` is total and idempotent: it leaves the stored
frame id null with no pending callback, and a second stop changes
nothing. -/
theorem stopBoundaryAnimation_safe_and_idempotent (s : AnimSt)
    (h : AnimInv s) :
    (stopBoundaryAnimation s).frameId = none ∧
    (stopBoundaryAnimation s).pending = [] ∧
    stopBoundaryAnimation (stopBoundaryAnimation s) = stopBoundaryAnimation s := by
  obtain ⟨hp, hf⟩ := stop_resets s h
  exact ⟨hf, hp, stop_of_none _ hf⟩

/-- Witness for C9 at the never-started state over a fresh map. -/
theorem stopBoundaryAnimation_safe_and_idempotent_witness :
    AnimInv (initSt emptyMap) ∧
    (stopBoundaryAnimation (initSt emptyMap)).frameId = none ∧
    (stopBoundaryAnimation (initSt emptyMap)).pending = [] ∧
    stopBoundaryAnimation (stopBoundaryAnimation (initSt emptyMap))
      = stopBoundaryAnimation (initSt emptyMap) :=
  ⟨animInv_init emptyMap,
   stopBoundaryAnimation_safe_and_idempotent (initSt emptyMap)
     (animInv_init emptyMap)⟩

/-- A closed ring whose first edge is degenerate: the vertex (0,0)
repeats immediately. -/
noncomputable def degenerateRing : List (ℝ × ℝ) :=
  [(0, 0), (0, 0), (1, 0), (0, 1), (0, 0)]

/-- Claim C5 (code bug): the spec requires zero-length edges to be skipped
to avoid a division by zero, but the wall loop has no length guard. On a
closed ring whose first edge is degenerate, a wall segment IS emitted for
the zero-length edge (4 segments, not 3), and the divisor used for that
edge is 0 — in JavaScript this division yields NaN wall coordinates.
(Lean resolves the division to 0; the facts below are independent of that
convention.) -/
theorem wall_loop_emits_segment_for_zero_length_edge :
    closeRing degenerateRing = degenerateRing ∧
    (wallSegments degenerateRing).length = 4 ∧
    (wallSegments degenerateRing).head? = some (wallSegment (0, 0) (0, 0)) ∧
    edgeLength (0, 0) (0, 0) = 0 ∧
    ((addBoundaryLayerFromPolygon emptyMap
        (some [degenerateRing])).getSource "observation-boundary-walls").map
        List.length = some 4 := by
  refine ⟨?_, ?_, ?_, ?_, ?_⟩
  · simp [closeRing, degenerateRing, List.getLastD]
  · simp [wallSegments_length, degenerateRing]
  · simp [wallSegments, degenerateRing]
  · simp [edgeLength, Real.sqrt_zero]
  · simp [addBoundaryLayerFromPolygon, degenerateRing, emptyMap,
      removeWallBoundary, MapState.getLayer, MapState.getSource,
      MapState.addLayer, MapState.addSource, MapState.removeLayer,
      MapState.removeSource, closeRing, List.getLastD, wallSegments_length,
      List.find?]

/-- Counterexample to claim C6: a bounding box degenerate to the single
point (0,0) is NOT rejected — the walls layer is installed and four
(zero-length) wall rectangles are produced. -/
theorem addBoundaryLayer_accepts_point_bbox :
    (addBoundaryLayer emptyMap (some [(0, 0), (0, 0)])).getLayer
        "observation-boundary-walls" = true ∧
    ((addBoundaryLayer emptyMap (some [(0, 0), (0, 0)])).getSource
        "observation-boundary-walls").map List.length = some 4 := by
  constructor
  · simp [addBoundaryLayer, emptyMap, removeWallBoundary, MapState.getLayer,
      MapState.getSource, MapState.addLayer, MapState.addSource]
  · simp [addBoundaryLayer, emptyMap, removeWallBoundary, MapState.getLayer,
      MapState.getSource, MapState.addLayer, MapState.addSource, List.find?]

/-- Claim C6 as amended: the builders reject a null bounding box, a
bounding box that is not a two-point list, a null polygon, a polygon with
no rings, and a polygon whose first ring is empty (returning with no
boundary layers installed and never throwing) — but geometric degeneracy
is not checked: a two-vertex closed ring (and likewise a point bounding
box) still installs layers. -/
theorem boundary_builders_reject_null_and_malformed
    (m : MapState) (l : List (ℝ × ℝ)) (hl2 : l.length ≠ 2)
    (rs : List (List (ℝ × ℝ))) :
    addBoundaryLayer m none = m ∧
    addBoundaryLayer m (some l) = m ∧
    addBoundaryLayerFromPolygon m none = m ∧
    addBoundaryLayerFromPolygon m (some []) = m ∧
    addBoundaryLayerFromPolygon m (some ([] :: rs)) = removeWallBoundary m ∧
    (addBoundaryLayerFromPolygon emptyMap
        (some [[(0, 0), (0, 0)]])).getLayer "observation-boundary-walls" = true := by
  refine ⟨rfl, ?_, rfl, by simp [addBoundaryLayerFromPolygon], ?_, ?_⟩
  · simp only [addBoundaryLayer]
    rw [if_pos hl2]
  · simp [addBoundaryLayerFromPolygon]
  · simp [addBoundaryLayerFromPolygon, emptyMap, removeWallBoundary,
      MapState.getLayer, MapState.getSource, MapState.addLayer,
      MapState.addSource, closeRing, List.getLastD]

/-- Witness for C6 (amended) at a malformed bounds list of length 0. -/
theorem boundary_builders_reject_null_and_malformed_witness :
    (([] : List (ℝ × ℝ)).length ≠ 2) ∧
    addBoundaryLayer emptyMap (some ([] : List (ℝ × ℝ))) = emptyMap :=
  ⟨by norm_num,
   (boundary_builders_reject_null_and_malformed emptyMap [] (by norm_num)
     []).2.1⟩

/-- Claim C7 (confirmed): a ring that is not closed is closed by appending
its first vertex, the resulting ring starts and ends with the first
vertex, and the wall loop emits exactly N − 1 segments for a closed ring
of N vertices (one per consecutive vertex pair). -/
theorem polygon_ring_closed_and_segment_count (c : ℝ × ℝ)
    (rest : List (ℝ × ℝ))
    (hN : 3 ≤ (closeRing (c :: rest)).length) :
    (c = (c :: rest).getLastD c → closeRing (c :: rest) = c :: rest) ∧
    (c ≠ (c :: rest).getLastD c → closeRing (c :: rest) = (c :: rest) ++ [c]) ∧
    (closeRing (c :: rest)).head? = some c ∧
    (closeRing (c :: rest)).getLast? = some c ∧
    (wallSegments (closeRing (c :: rest))).length
      = (closeRing (c :: rest)).length - 1 := by
  have hcr : closeRing (c :: rest)
      = if c = (c :: rest).getLastD c then c :: rest
        else (c :: rest) ++ [c] := rfl
  by_cases hcl : c = (c :: rest).getLastD c
  · rw [hcr, if_pos hcl]
    refine ⟨fun _ => rfl, fun hne => absurd hcl hne, rfl, ?_,
      wallSegments_length _⟩
    rw [getLast?_eq_getLastD (c :: rest) c (by simp), ← hcl]
  · rw [hcr, if_neg hcl]
    exact ⟨fun h => absurd h hcl, fun _ => rfl, rfl,
      List.getLast?_concat _, wallSegments_length _⟩

/-- Witness for C7 at an open triangle: closing yields 4 vertices and
exactly 3 wall segments. -/
theorem polygon_ring_closed_and_segment_count_witness :
    3 ≤ (closeRing [((0 : ℝ), (0 : ℝ)), (1, 0), (0, 1)]).length ∧
    (wallSegments (closeRing [((0 : ℝ), (0 : ℝ)), (1, 0), (0, 1)])).length
      = (closeRing [((0 : ℝ), (0 : ℝ)), (1, 0), (0, 1)]).length - 1 := by
  have h3 : 3 ≤ (closeRing [((0 : ℝ), (0 : ℝ)), (1, 0), (0, 1)]).length := by
    norm_num [closeRing, List.getLastD, Prod.ext_iff]
  exact ⟨h3,
    (polygon_ring_closed_and_segment_count (0, 0) [(1, 0), (0, 1)] h3).2.2.2.2⟩

/-- Counterexample to claim C8: no single rectangle-mode builder produces
both 4 wall segments and 4 corner pillars. At the valid bounding box
[[0,0],[1,1]], the hollow-wall builder produces 4 wall segments but no
corner source at all, while the force-field builder produces the 4 corner
pillars but only a single filled rectangle (1 feature, not 4 wall
segments). -/
theorem no_rect_builder_makes_both_walls_and_pillars :
    (addBoundaryLayer emptyMap (some [(0, 0), (1, 1)])).getSource
        "observation-boundary-corners" = none ∧
    ((addBoundaryLayer emptyMap (some [(0, 0), (1, 1)])).getSource
        "observation-boundary-walls").map List.length = some 4 ∧
    ((addBoundaryLayerForceField emptyMap (some [(0, 0), (1, 1)])).getSource
        "observation-boundary").map List.length = some 1 ∧
    ((addBoundaryLayerForceField emptyMap (some [(0, 0), (1, 1)])).getSource
        "observation-boundary-corners").map List.length = some 4 := by
  refine ⟨?_, ?_, ?_, ?_⟩ <;>
    simp [addBoundaryLayer, addBoundaryLayerForceField, emptyMap,
      removeWallBoundary, removeForceFieldBoundary, MapState.getLayer,
      MapState.getSource, MapState.addLayer, MapState.addSource, List.find?]

/-- Claim C8 as amended: for a valid non-degenerate bounding box, the
hollow-wall builder produces exactly 4 wall segments — closed 5-point
rings (4 distinct corners), one straddling each edge by the thickness
constant — and no corner pillars; the force-field builder produces
exactly 4 corner pillars, one small closed square per corner. -/
theorem rect_builders_walls_and_pillars (sw nb : ℝ × ℝ)
    (h1 : sw.1 < nb.1) (h2 : sw.2 < nb.2) :
    (∃ ws, (addBoundaryLayer emptyMap (some [sw, nb])).getSource
        "observation-boundary-walls" = some ws ∧
      ws.length = 4 ∧
      ws = [
        [(sw.1, sw.2 - rectWallEdgeWidth), (nb.1, sw.2 - rectWallEdgeWidth),
         (nb.1, sw.2 + rectWallEdgeWidth), (sw.1, sw.2 + rectWallEdgeWidth),
         (sw.1, sw.2 - rectWallEdgeWidth)],
        [(sw.1, nb.2 - rectWallEdgeWidth), (nb.1, nb.2 - rectWallEdgeWidth),
         (nb.1, nb.2 + rectWallEdgeWidth), (sw.1, nb.2 + rectWallEdgeWidth),
         (sw.1, nb.2 - rectWallEdgeWidth)],
        [(sw.1 - rectWallEdgeWidth, sw.2), (sw.1 + rectWallEdgeWidth, sw.2),
         (sw.1 + rectWallEdgeWidth, nb.2), (sw.1 - rectWallEdgeWidth, nb.2),
         (sw.1 - rectWallEdgeWidth, sw.2)],
        [(nb.1 - rectWallEdgeWidth, sw.2), (nb.1 + rectWallEdgeWidth, sw.2),
         (nb.1 + rectWallEdgeWidth, nb.2), (nb.1 - rectWallEdgeWidth, nb.2),
         (nb.1 - rectWallEdgeWidth, sw.2)]] ∧
      ∀ r ∈ ws, r.length = 5 ∧ r.head? = r.getLast?) ∧
    (addBoundaryLayer emptyMap (some [sw, nb])).getSource
        "observation-boundary-corners" = none ∧
    (∃ ps, (addBoundaryLayerForceField emptyMap (some [sw, nb])).getSource
        "observation-boundary-corners" = some ps ∧
      ps.length = 4 ∧
      ps = [createCornerPillar sw.1 sw.2 cornerPillarRadius,
            createCornerPillar nb.1 sw.2 cornerPillarRadius,
            createCornerPillar nb.1 nb.2 cornerPillarRadius,
            createCornerPillar sw.1 nb.2 cornerPillarRadius] ∧
      ∀ r ∈ ps, r.length = 5 ∧ r.head? = r.getLast?) := by
  refine ⟨⟨_, ?_, by simp, rfl, ?_⟩, ?_, ⟨_, ?_, by simp, rfl, ?_⟩⟩
  · simp [addBoundaryLayer, emptyMap, removeWallBoundary, MapState.getLayer,
      MapState.getSource, MapState.addLayer, MapState.addSource, List.find?]
  · intro r hr
    simp only [List.mem_cons, List.not_mem_nil, or_false] at hr
    rcases hr with h | h | h | h <;> subst h <;>
      exact ⟨rfl, by simp [List.getLast?]⟩
  · simp [addBoundaryLayer, emptyMap, removeWallBoundary, MapState.getLayer,
      MapState.getSource, MapState.addLayer, MapState.addSource, List.find?]
  · simp [addBoundaryLayerForceField, emptyMap, removeForceFieldBoundary,
      MapState.getLayer, MapState.getSource, MapState.addLayer,
      MapState.addSource, List.find?]
  · intro r hr
    simp only [List.mem_cons, List.not_mem_nil, or_false] at hr
    rcases hr with h | h | h | h <;> subst h <;>
      exact ⟨by simp [createCornerPillar],
        by simp [createCornerPillar, List.getLast?]⟩

/-- Witness for C8 (amended) at the bounding box [[0,0],[1,1]]. -/
theorem rect_builders_walls_and_pillars_witness :
    (((0 : ℝ), (0 : ℝ)).1 < ((1 : ℝ), (1 : ℝ)).1) ∧
    (((0 : ℝ), (0 : ℝ)).2 < ((1 : ℝ), (1 : ℝ)).2) ∧
    (addBoundaryLayer emptyMap (some [((0 : ℝ), (0 : ℝ)), (1, 1)])).getSource
        "observation-boundary-corners" = none :=
  ⟨by norm_num, by norm_num,
   (rect_builders_walls_and_pillars (0, 0) (1, 1) (by norm_num)
     (by norm_num)).2.1⟩

/-- Claim C10 (confirmed): `calculateBounds` is null on a null or empty
list, and on a non-empty list returns southwest/northeast corners with
minLng ≤ maxLng, minLat ≤ maxLat, and every observation inside the box. -/
theorem calculateBounds_spec (obs : List Observation) :
    calculateBounds none = none ∧
    calculateBounds (some []) = none ∧
    (obs ≠ [] →
      ∃ sw nb, calculateBounds (some obs) = some (sw, nb) ∧
        sw.1 ≤ nb.1 ∧ sw.2 ≤ nb.2 ∧
        ∀ o ∈ obs, sw.1 ≤ o.lng ∧ o.lng ≤ nb.1 ∧ sw.2 ≤ o.lat ∧ o.lat ≤ nb.2) := by
  refine ⟨rfl, rfl, ?_⟩
  intro hne
  cases obs with
  | nil => exact absurd rfl hne
  | cons o rest =>
    refine ⟨(minOf o.lng (rest.map fun x : Observation => x.lng),
             minOf o.lat (rest.map fun x : Observation => x.lat)),
            (maxOf o.lng (rest.map fun x : Observation => x.lng),
             maxOf o.lat (rest.map fun x : Observation => x.lat)),
            rfl, ?_, ?_, ?_⟩
    · exact le_trans (minOf_le _ _).1 (le_maxOf _ _).1
    · exact le_trans (minOf_le _ _).1 (le_maxOf _ _).1
    · intro ob hob
      rcases List.mem_cons.mp hob with h | h
      · subst h
        exact ⟨(minOf_le _ _).1, (le_maxOf _ _).1, (minOf_le _ _).1,
          (le_maxOf _ _).1⟩
      · exact ⟨(minOf_le _ _).2 _ (List.mem_map_of_mem _ h),
          (le_maxOf _ _).2 _ (List.mem_map_of_mem _ h),
          (minOf_le _ _).2 _ (List.mem_map_of_mem _ h),
          (le_maxOf _ _).2 _ (List.mem_map_of_mem _ h)⟩

/-- Witness for C10 at a concrete two-observation list. -/
theorem calculateBounds_spec_witness :
    ([(⟨3, 4⟩ : Observation), ⟨1, 6⟩] ≠ []) ∧
    ∃ sw nb,
      calculateBounds (some [(⟨3, 4⟩ : Observation), ⟨1, 6⟩]) = some (sw, nb) ∧
      sw.1 ≤ nb.1 ∧ sw.2 ≤ nb.2 ∧
      ∀ o ∈ [(⟨3, 4⟩ : Observation), ⟨1, 6⟩],
        sw.1 ≤ o.lng ∧ o.lng ≤ nb.1 ∧ sw.2 ≤ o.lat ∧ o.lat ≤ nb.2 :=
  ⟨by simp, (calculateBounds_spec _).2.2 (by simp)⟩
